import Mathlib

/-!
Verification of the UFO batch-import ETL script (`scripts/import-ufo-batch.py`).

The script is embedded shallowly: a raw sighting record becomes the structure
`Rec`, whose optional fields mirror the optional keys of the JSON objects
(`none` models an absent key; the effect/geophysical flags, which the script
only ever tests for truthiness, are modelled as `Bool`).  Numeric fields are
modelled as rationals (`ℚ`), integer counters as `Int`, text as `String`.
Python truthiness of an optional number/string is made explicit by the
`numTruthy` / `intTruthy` / `strTruthy` predicates.
-/

/-- A raw UFO sighting record as read from the enriched JSON file.
`none` means the key is absent. -/
structure Rec where
  latitude : Option ℚ
  longitude : Option ℚ
  local_sidereal_time : Option String
  date_time : Option String
  duration_seconds : Option ℚ
  shape : Option String
  witness_count : Option Int
  city : Option String
  state : Option String
  country : Option String
  description : Option String
  source : Option String
  source_id : Option String
  physiological_effects : Bool
  em_interference : Bool
  physical_effects : Bool
  earthquake_nearby : Bool
  geomagnetic_storm : Bool
  airport_nearby_km : Option ℚ
  military_base_nearby_km : Option ℚ
  nearest_fault_line_km : Option ℚ
  bedrock_type : Option String
  piezoelectric_bedrock : Bool
  earthquake_count : Option Int
  max_magnitude : Option ℚ
  population_density : Option ℚ
  kp_index : Option ℚ
  kp_max : Option ℚ
  weather_conditions : Option String
  physical_effects_desc : Option String
  physiological_effects_desc : Option String
  em_interference_desc : Option String
  deriving DecidableEq

/-- The record with every key absent and every flag falsy. -/
def Rec.empty : Rec where
  latitude := none
  longitude := none
  local_sidereal_time := none
  date_time := none
  duration_seconds := none
  shape := none
  witness_count := none
  city := none
  state := none
  country := none
  description := none
  source := none
  source_id := none
  physiological_effects := false
  em_interference := false
  physical_effects := false
  earthquake_nearby := false
  geomagnetic_storm := false
  airport_nearby_km := none
  military_base_nearby_km := none
  nearest_fault_line_km := none
  bedrock_type := none
  piezoelectric_bedrock := false
  earthquake_count := none
  max_magnitude := none
  population_density := none
  kp_index := none
  kp_max := none
  weather_conditions := none
  physical_effects_desc := none
  physiological_effects_desc := none
  em_interference_desc := none

/-- Python truthiness of an optional number: present and nonzero. -/
def numTruthy (o : Option ℚ) : Bool :=
  match o with
  | none => false
  | some q => q != 0

/-- Python truthiness of an optional integer: present and nonzero. -/
def intTruthy (o : Option Int) : Bool :=
  match o with
  | none => false
  | some n => n != 0

/-- Python truthiness of an optional string: present and non-empty. -/
def strTruthy (o : Option String) : Bool :=
  match o with
  | none => false
  | some s => s != ""

/-- The script's `quality_score`: the ranking heuristic used to order
candidate records before truncation.  Additive, never stored. -/
def quality_score (r : Rec) : Int :=
  (if r.physiological_effects then 3 else 0)
  + (if r.em_interference then 3 else 0)
  + (if r.earthquake_nearby then 2 else 0)
  + (if r.geomagnetic_storm then 2 else 0)
  + (match r.witness_count with
     | some wc => if wc != 0 && 1 < wc then min 3 wc else 0
     | none => 0)
  + (match r.duration_seconds with
     | some d => if d != 0 && 60 < d then 1 else 0
     | none => 0)
  + (match r.shape with
     | some s => if s != "" && s ∉ (["unknown", "other", "light"] : List String) then 1 else 0
     | none => 0)

/-- The coordinate term of `calc_triage_score`: `+3` when both `latitude`
and `longitude` are truthy (the script tests `r.get(...)` truthiness). -/
def triage_coord_term (r : Rec) : Int :=
  if numTruthy r.latitude && numTruthy r.longitude then 3 else 0

/-- The remaining (non-coordinate) terms of `calc_triage_score`. -/
def triage_rest (r : Rec) : Int :=
  (match r.witness_count with
   | some wc => if wc != 0 && 1 < wc then min 2 (wc - 1) else 0
   | none => 0)
  + (match r.duration_seconds with
     | some d => if d != 0 && 0 < d then 1 else 0
     | none => 0)
  + (if r.physical_effects || r.physiological_effects then 2 else 0)
  + (if r.em_interference then 1 else 0)
  + (if strTruthy r.source then 1 else 0)

/-- The script's `calc_triage_score`: additive score clamped above by 10. -/
def calc_triage_score (r : Rec) : Int :=
  min 10 (triage_coord_term r + triage_rest r)

/-- The script's `calc_confound_score`: airport/military proximity add,
effect flags subtract, result clamped to `[0, 100]`.  The distance fields are
tested with `is not None`, so a present `0` counts. -/
def calc_confound_score (r : Rec) : Int :=
  max 0 (min 100
    ((match r.airport_nearby_km with
      | some a => if a < 10 then 40 else if a < 30 then 25 else if a < 50 then 10 else 0
      | none => 0)
     + (match r.military_base_nearby_km with
        | some m => if m < 30 then 30 else if m < 50 then 15 else 0
        | none => 0)
     + (if r.physiological_effects then -20 else 0)
     + (if r.em_interference then -15 else 0)))

/-- Removal of null bytes, as the script does with `str.replace` of the NUL
character by the empty string. -/
def stripNull (l : List Char) : List Char :=
  l.filter (fun c => c != Char.ofNat 0)

/-- The `strip` step: drop leading and trailing whitespace, as Python's
`str.strip` does. -/
def pyStrip (l : List Char) : List Char :=
  ((l.dropWhile Char.isWhitespace).reverse.dropWhile Char.isWhitespace).reverse

/-- The script's `clean_text`: empty/falsy input yields the empty string;
otherwise null bytes are removed, the result is stripped of surrounding
whitespace and truncated to `maxLen` characters. -/
def clean_text (text : String) (maxLen : Nat) : String :=
  if text = "" then "" else ⟨(pyStrip (stripNull text.data)).take maxLen⟩

/-- The triage-status classifier applied by `transform_record` to the pair
`(triage_score, confound_score)`. -/
def triage_status_of (triage_score confound_score : Int) : String :=
  if 7 ≤ triage_score ∧ confound_score < 30 then "verified"
  else if 4 ≤ triage_score ∨ confound_score < 50 then "provisional"
  else "pending"

/-- The date component of the generated title: the first 10 characters of
`date_time` when that field is truthy, else the literal Unknown. -/
def title_date (r : Rec) : String :=
  if strTruthy r.date_time then ⟨((r.date_time.getD "").data.take 10)⟩ else "Unknown"

/-- The generated title, truncated to 200 characters: the sanitized shape
followed by a space when non-empty, then UFO - city, state, and the date
component in parentheses. -/
def title_of (r : Rec) : String :=
  let city := clean_text (r.city.getD "Unknown") 50
  let state := clean_text (r.state.getD "") 20
  let shape := clean_text (r.shape.getD "") 20
  ⟨(((if shape != "" then shape ++ " " else "")
      ++ "UFO - " ++ city ++ ", " ++ state ++ " (" ++ title_date r ++ ")").data.take 200)⟩

/-- The `location` sub-group of the `raw_data` payload. -/
structure LocationData where
  city : Option String
  state : Option String
  country : Option String
  latitude : Option ℚ
  longitude : Option ℚ
  deriving DecidableEq

/-- The `geophysical` sub-group of the `raw_data` payload. -/
structure GeophysicalData where
  nearest_fault_line_km : Option ℚ
  bedrock_type : Option String
  piezoelectric_bedrock : Bool
  earthquake_nearby : Bool
  earthquake_count : Option Int
  max_magnitude : Option ℚ
  population_density : Option ℚ
  deriving DecidableEq

/-- The `geomagnetic` sub-group of the `raw_data` payload. -/
structure GeomagneticData where
  kp_index : Option ℚ
  kp_max : Option ℚ
  geomagnetic_storm : Bool
  deriving DecidableEq

/-- The `confounds` sub-group of the `raw_data` payload. -/
structure ConfoundsData where
  military_base_nearby_km : Option ℚ
  airport_nearby_km : Option ℚ
  weather_conditions : Option String
  deriving DecidableEq

/-- The `effects` sub-group of the `raw_data` payload. -/
structure EffectsData where
  physical_effects : Bool
  physical_effects_desc : Option String
  physiological_effects : Bool
  physiological_effects_desc : Option String
  em_interference : Bool
  em_interference_desc : Option String
  deriving DecidableEq

/-- The nested `raw_data` payload built by `transform_record`.  Its
`quality_score` key is populated with the triage score, not with the output
of the ranking heuristic `quality_score`. -/
structure RawData where
  date_time : Option String
  local_sidereal_time : Option String
  duration_seconds : Option ℚ
  shape : Option String
  witness_count : Option Int
  location : LocationData
  geophysical : GeophysicalData
  geomagnetic : GeomagneticData
  confounds : ConfoundsData
  effects : EffectsData
  source : Option String
  source_id : Option String
  quality_score : Int
  confound_score : Int
  deriving DecidableEq

/-- The transformed investigation record inserted into the database table. -/
structure Investigation where
  user_id : String
  investigation_type : String
  title : String
  description : String
  raw_data : RawData
  triage_score : Int
  triage_status : String
  triage_notes : String
  deriving DecidableEq

/-- The fixed system user identifier constant. -/
def SYSTEM_USER_ID : String := "00000000-0000-0000-0000-000000000000"

/-- The `BATCH_SIZE` constant from the script. -/
def BATCH_SIZE : Nat := 500

/-- The `MAX_RECORDS` constant from the script. -/
def MAX_RECORDS : Nat := 5000

/-- The script's `transform_record`: scores the record, classifies its
triage status, builds title/description and the nested payload. -/
def transform_record (r : Rec) : Investigation :=
  let triage_score := calc_triage_score r
  let confound_score := calc_confound_score r
  let status := triage_status_of triage_score confound_score
  let desc0 := clean_text (r.description.getD "") 500
  let desc := if desc0 != "" then desc0 else "UFO sighting report"
  { user_id := SYSTEM_USER_ID
    investigation_type := "ufo"
    title := title_of r
    description := desc
    raw_data :=
      { date_time := r.date_time
        local_sidereal_time := r.local_sidereal_time
        duration_seconds := r.duration_seconds
        shape := r.shape
        witness_count := r.witness_count
        location :=
          { city := r.city
            state := r.state
            country := r.country
            latitude := r.latitude
            longitude := r.longitude }
        geophysical :=
          { nearest_fault_line_km := r.nearest_fault_line_km
            bedrock_type := r.bedrock_type
            piezoelectric_bedrock := r.piezoelectric_bedrock
            earthquake_nearby := r.earthquake_nearby
            earthquake_count := r.earthquake_count
            max_magnitude := r.max_magnitude
            population_density := r.population_density }
        geomagnetic :=
          { kp_index := r.kp_index
            kp_max := r.kp_max
            geomagnetic_storm := r.geomagnetic_storm }
        confounds :=
          { military_base_nearby_km := r.military_base_nearby_km
            airport_nearby_km := r.airport_nearby_km
            weather_conditions := r.weather_conditions }
        effects :=
          { physical_effects := r.physical_effects
            physical_effects_desc := r.physical_effects_desc
            physiological_effects := r.physiological_effects
            physiological_effects_desc := r.physiological_effects_desc
            em_interference := r.em_interference
            em_interference_desc := r.em_interference_desc }
        source := r.source
        source_id := r.source_id
        quality_score := triage_score
        confound_score := confound_score }
    triage_score := triage_score
    triage_status := status
    triage_notes := "Batch import. Quality: " ++ toString triage_score
      ++ "/10, Confound: " ++ toString confound_score ++ "%" }

/-- The Tier-1 filter from `main`: keep records whose `latitude`, `longitude`
and `local_sidereal_time` are all truthy. -/
def tier1_filter (records : List Rec) : List Rec :=
  records.filter (fun r =>
    numTruthy r.latitude && numTruthy r.longitude && strTruthy r.local_sidereal_time)

/-- The high-signal filter from `main`: at least one of the effect flags is
truthy, or the witness count is truthy and greater than 1. -/
def high_signal_filter (l : List Rec) : List Rec :=
  l.filter (fun r =>
    r.physiological_effects || r.em_interference || r.earthquake_nearby ||
      (match r.witness_count with
       | some wc => wc != 0 && 1 < wc
       | none => false))

/-- The Boolean comparison used to sort candidates by quality score
descending (`high_signal.sort(key=quality_score, reverse=True)`). -/
def quality_ge (a b : Rec) : Bool :=
  quality_score b ≤ quality_score a

/-- The selection stage of `main`: Tier-1 filter, high-signal filter, sort by
quality score descending, truncate to `maxRecords`. -/
def select_records (records : List Rec) (maxRecords : Nat) : List Rec :=
  ((high_signal_filter (tier1_filter records)).mergeSort quality_ge).take maxRecords

/-- The transformation stage of `main` applied to the selected records. -/
def transformed_records (records : List Rec) (maxRecords : Nat) : List Investigation :=
  (select_records records maxRecords).map transform_record

/-- The batch partition of `main`'s insert loop: the batch starting at index
`i*B` is `investigations[i*B : i*B + B]`, for `i` ranging over the
`ceil(N/B)` steps of `range(0, N, B)`. -/
def batchesOf (B : Nat) (l : List Investigation) : List (List Investigation) :=
  (List.range ((l.length + B - 1) / B)).map (fun i => (l.drop (i * B)).take B)

/-- The batch-insert loop of `main`, starting at batch index `i`: each batch
is attempted exactly once, in order; a successful insert adds the batch size
to the imported total, a raising insert adds it to the failed total; the loop
never stops early and never retries.  `ok k` tells whether the sink call for
batch index `k` succeeds.  Returns `(imported, failed, attempted indices)`. -/
def run_import (ok : Nat → Bool) : Nat → List (List Investigation) → Nat × Nat × List Nat
  | _, [] => (0, 0, [])
  | i, b :: bs =>
    let rest := run_import ok (i + 1) bs
    if ok i then (b.length + rest.1, rest.2.1, i :: rest.2.2)
    else (rest.1, b.length + rest.2.1, i :: rest.2.2)

/-- The import stage of `main`: partition the transformed records into
batches of `BATCH_SIZE` and run the insert loop from batch index 0. -/
def import_stage (investigations : List Investigation) (ok : Nat → Bool) :
    Nat × Nat × List Nat :=
  run_import ok 0 (batchesOf BATCH_SIZE investigations)

/-! ### Helper lemmas -/

theorem triage_coord_term_nonneg (r : Rec) : 0 ≤ triage_coord_term r := by
  unfold triage_coord_term
  split_ifs <;> omega

theorem triage_rest_nonneg (r : Rec) : 0 ≤ triage_rest r := by
  unfold triage_rest
  have h1 : (0 : Int) ≤
      match r.witness_count with
      | some wc => if wc != 0 && decide (1 < wc) then min 2 (wc - 1) else 0
      | none => 0 := by
    cases r.witness_count with
    | none => exact le_refl 0
    | some wc =>
      dsimp only
      split_ifs with h
      · simp only [Bool.and_eq_true, bne_iff_ne, decide_eq_true_eq] at h
        omega
      · exact le_refl 0
  have h2 : (0 : Int) ≤
      match r.duration_seconds with
      | some d => if d != 0 && decide (0 < d) then 1 else 0
      | none => 0 := by
    cases r.duration_seconds with
    | none => exact le_refl 0
    | some d => dsimp only; split_ifs <;> omega
  have h3 : (0 : Int) ≤ if r.physical_effects || r.physiological_effects then 2 else 0 := by
    split_ifs <;> omega
  have h4 : (0 : Int) ≤ if r.em_interference then 1 else 0 := by
    split_ifs <;> omega
  have h5 : (0 : Int) ≤ if strTruthy r.source then 1 else 0 := by
    split_ifs <;> omega
  omega

theorem quality_score_nonneg (r : Rec) : 0 ≤ quality_score r := by
  unfold quality_score
  have h1 : (0 : Int) ≤
      match r.witness_count with
      | some wc => if wc != 0 && decide (1 < wc) then min 3 wc else 0
      | none => 0 := by
    cases r.witness_count with
    | none => exact le_refl 0
    | some wc =>
      dsimp only
      split_ifs with h
      · simp only [Bool.and_eq_true, bne_iff_ne, decide_eq_true_eq] at h
        omega
      · exact le_refl 0
  have h2 : (0 : Int) ≤
      match r.duration_seconds with
      | some d => if d != 0 && decide (60 < d) then 1 else 0
      | none => 0 := by
    cases r.duration_seconds with
    | none => exact le_refl 0
    | some d => dsimp only; split_ifs <;> omega
  have h3 : (0 : Int) ≤
      match r.shape with
      | some s =>
          if s != "" && decide (s ∉ (["unknown", "other", "light"] : List String)) then 1 else 0
      | none => 0 := by
    cases r.shape with
    | none => exact le_refl 0
    | some s => dsimp only; split_ifs <;> omega
  have h4 : (0 : Int) ≤ if r.physiological_effects then 3 else 0 := by split_ifs <;> omega
  have h5 : (0 : Int) ≤ if r.em_interference then 3 else 0 := by split_ifs <;> omega
  have h6 : (0 : Int) ≤ if r.earthquake_nearby then 2 else 0 := by split_ifs <;> omega
  have h7 : (0 : Int) ≤ if r.geomagnetic_storm then 2 else 0 := by split_ifs <;> omega
  omega

/-! ### Claims -/

/-- C2: for every raw record — in particular whatever subset of fields is
absent — the three scorers are total functions (the embedding is by total
functions, so they never raise), `quality_score` is a non-negative integer,
`calc_triage_score` lies in `[0, 10]` and `calc_confound_score` in
`[0, 100]`. -/
theorem C2_scorers_total_and_bounded (r : Rec) :
    0 ≤ quality_score r
    ∧ 0 ≤ calc_triage_score r ∧ calc_triage_score r ≤ 10
    ∧ 0 ≤ calc_confound_score r ∧ calc_confound_score r ≤ 100 := by
  refine ⟨quality_score_nonneg r, ?_, ?_, ?_, ?_⟩
  · exact le_min (by omega)
      (by have := triage_coord_term_nonneg r; have := triage_rest_nonneg r; omega)
  · exact min_le_left _ _
  · exact le_max_left _ _
  · exact max_le (by omega) (min_le_left _ _)

/-- C1: the transformer's triage status is exactly the classifier applied to
`(triage_score, confound_score)`; the classifier yields `verified` iff
`score ≥ 7 ∧ confound < 30`, otherwise `provisional` iff
`score ≥ 4 ∨ confound < 50`, otherwise `pending`; and on the four sample
pairs it yields `verified`, `provisional`, `pending`, `provisional`. -/
theorem C1_triage_status_classifier :
    (∀ r : Rec, (transform_record r).triage_status
        = triage_status_of (calc_triage_score r) (calc_confound_score r))
    ∧ (∀ ts cs : Int,
        (triage_status_of ts cs = "verified" ↔ 7 ≤ ts ∧ cs < 30)
        ∧ (triage_status_of ts cs = "provisional"
            ↔ ¬(7 ≤ ts ∧ cs < 30) ∧ (4 ≤ ts ∨ cs < 50))
        ∧ (triage_status_of ts cs = "pending"
            ↔ ¬(7 ≤ ts ∧ cs < 30) ∧ ¬(4 ≤ ts ∨ cs < 50)))
    ∧ triage_status_of 7 29 = "verified"
    ∧ triage_status_of 7 30 = "provisional"
    ∧ triage_status_of 3 60 = "pending"
    ∧ triage_status_of 0 10 = "provisional" := by
  refine ⟨fun r => rfl, fun ts cs => ?_, by decide, by decide, by decide, by decide⟩
  unfold triage_status_of
  split_ifs with h1 h2 <;>
    refine ⟨?_, ?_, ?_⟩ <;> simp_all

/-- The confound rule as the claim states it: the airport term, plus the
military term, minus 20 for physiological effects, minus 15 for EM
interference, clamped to `[0, 100]`. -/
def confound_claim (r : Rec) : Int :=
  max 0 (min 100
    ((match r.airport_nearby_km with
      | some a => if a < 10 then 40 else if a < 30 then 25 else if a < 50 then 10 else 0
      | none => 0)
     + (match r.military_base_nearby_km with
        | some m => if m < 30 then 30 else if m < 50 then 15 else 0
        | none => 0)
     - (if r.physiological_effects then 20 else 0)
     - (if r.em_interference then 15 else 0)))

/-- C4: for every raw record the confound score computed by the script
agrees with the rule stated in the claim (airport/military proximity terms,
effect deductions, clamp to `[0, 100]`). -/
theorem C4_confound_score_rule (r : Rec) :
    calc_confound_score r = confound_claim r := by
  unfold calc_confound_score confound_claim
  split_ifs <;> ring_nf

/-- A record on which the ranking heuristic and the triage score differ. -/
def recC10 : Rec :=
  { Rec.empty with
    physiological_effects := true
    em_interference := true
    earthquake_nearby := true
    geomagnetic_storm := true }

/-- C10: the `quality_score` key of the `raw_data` payload is populated with
the triage score, for every record; on `recC10` the ranking heuristic's
value (10) differs from both the stored `raw_data.quality_score` and the
stored `triage_score` (both 3), so the §4.1 quality score is not stored. -/
theorem C10_quality_score_not_stored :
    (∀ r : Rec, (transform_record r).raw_data.quality_score = calc_triage_score r)
    ∧ (∀ r : Rec, (transform_record r).triage_score = calc_triage_score r)
    ∧ quality_score recC10 = 10
    ∧ (transform_record recC10).raw_data.quality_score = 3
    ∧ (transform_record recC10).raw_data.quality_score ≠ quality_score recC10
    ∧ (transform_record recC10).triage_score ≠ quality_score recC10 := by
  exact ⟨fun r => rfl, fun r => rfl, by decide, by decide, by decide, by decide⟩

/-- A record with `latitude` present but equal to 0 (and `longitude`
present and nonzero): the claim's reading of "present" includes it, but the
script's truthiness test does not. -/
def recC3 : Rec :=
  { Rec.empty with
    latitude := some 0
    longitude := some 5 }

/-- C3 counterexample: on `recC3` both coordinate fields are present (one of
them with value 0), the remaining triage terms sum to 0, and the claim as
stated would therefore give a triage score of `min 10 (3 + 0) = 3`; the
script computes 0, because `latitude = 0` is falsy and the `+3` term is
skipped. -/
theorem C3_counterexample :
    recC3.latitude.isSome
    ∧ recC3.longitude.isSome
    ∧ recC3.latitude = some 0
    ∧ triage_rest recC3 = 0
    ∧ min 10 (3 + triage_rest recC3) = 3
    ∧ calc_triage_score recC3 = 0 := by
  refine ⟨rfl, rfl, rfl, by decide, by decide, by decide⟩

/-- C3 amended: for every raw record in which `latitude` and `longitude` are
present *and truthy* (present with a nonzero value), the triage score is 3
plus the sum of the remaining applicable terms, clamped to 10. -/
theorem C3_coordinate_term (r : Rec)
    (hlat : numTruthy r.latitude) (hlon : numTruthy r.longitude) :
    calc_triage_score r = min 10 (3 + triage_rest r) := by
  unfold calc_triage_score triage_coord_term
  rw [hlat, hlon]
  rfl

/-- Witness for the amended C3 on a concrete record with nonzero
coordinates. -/
theorem C3_coordinate_term_witness :
    calc_triage_score { Rec.empty with latitude := some 1, longitude := some 5 }
      = min 10 (3 + triage_rest { Rec.empty with latitude := some 1, longitude := some 5 }) :=
  C3_coordinate_term
    { Rec.empty with latitude := some 1, longitude := some 5 } (by decide) (by decide)

/-- The title rule exactly as the claim states it: in particular the date
component is the first 10 characters of `date_time` whenever that field is
present (even when its value is the empty string). -/
def title_claim (r : Rec) : String :=
  let date : String :=
    match r.date_time with
    | some d => ⟨d.data.take 10⟩
    | none => "Unknown"
  let city := clean_text (r.city.getD "Unknown") 50
  let state := clean_text (r.state.getD "") 20
  let shape := clean_text (r.shape.getD "") 20
  ⟨(((if shape != "" then shape ++ " " else "")
      ++ "UFO - " ++ city ++ ", " ++ state ++ " (" ++ date ++ ")").data.take 200)⟩

/-- The title rule as amended: the date component is the first 10 characters
of `date_time` when that field is present with a non-empty value, else the
literal "Unknown". -/
def title_amended (r : Rec) : String :=
  let date : String :=
    match r.date_time with
    | some d => if d ≠ "" then ⟨d.data.take 10⟩ else "Unknown"
    | none => "Unknown"
  let city : String :=
    match r.city with
    | some c => clean_text c 50
    | none => "Unknown"
  let state : String :=
    match r.state with
    | some s => clean_text s 20
    | none => ""
  let shape : String :=
    match r.shape with
    | some s => clean_text s 20
    | none => ""
  ⟨(((if shape != "" then shape ++ " " else "")
      ++ "UFO - " ++ city ++ ", " ++ state ++ " (" ++ date ++ ")").data.take 200)⟩

/-- A record whose `date_time` is present but empty. -/
def recC5 : Rec :=
  { Rec.empty with
    date_time := some ""
    city := some "Reno" }

/-- C5 counterexample: on a record whose `date_time` field is present with
value `""`, the claimed format puts the first 10 characters of `date_time`
(the empty string) into the title, but the script emits the literal
"Unknown", because its truthiness test treats the empty string like an
absent field. -/
theorem C5_counterexample :
    recC5.date_time.isSome
    ∧ title_claim recC5 = "UFO - Reno,  ()"
    ∧ (transform_record recC5).title = "UFO - Reno,  (Unknown)"
    ∧ (transform_record recC5).title ≠ title_claim recC5 := by
  refine ⟨rfl, by decide, by decide, by decide⟩

/-- The sample record of the claim's concrete title test. -/
def recDisk : Rec :=
  { Rec.empty with
    shape := some "disk"
    city := some "Reno"
    state := some "NV"
    date_time := some "2020-05-01T00:00:00" }

theorem title_eq_amended (r : Rec) : (transform_record r).title = title_amended r := by
  show title_of r = title_amended r
  have hu : clean_text "Unknown" 50 = "Unknown" := by decide
  have he : clean_text "" 20 = "" := by decide
  unfold title_of title_amended title_date
  cases hd : r.date_time <;> cases hc : r.city <;> cases hs : r.state <;> cases hsh : r.shape <;>
    simp [strTruthy, hu, he, bne]

theorem title_starts_UFO (r : Rec) (h : clean_text (r.shape.getD "") 20 = "") :
    (transform_record r).title.data.take 6 = "UFO - ".data := by
  show (title_of r).data.take 6 = "UFO - ".data
  unfold title_of
  rw [h]
  simp only [bne_self_eq_false, if_neg, Bool.false_eq_true, not_false_eq_true,
    String.data_append]
  rw [List.take_take]
  norm_num

/-- C5 amended: the generated title follows the claimed format with the date
clause weakened to "first 10 characters of `date_time` when present and
non-empty, else Unknown"; the whole title is truncated to 200 characters;
the sample record yields "disk UFO - Reno, NV (2020-05-01)"; and whenever
the sanitized shape is empty (in particular when `shape` is absent) the
title begins directly with "UFO - ". -/
theorem C5_title_format :
    (∀ r : Rec, (transform_record r).title = title_amended r)
    ∧ (∀ r : Rec, (transform_record r).title.length ≤ 200)
    ∧ (transform_record recDisk).title = "disk UFO - Reno, NV (2020-05-01)"
    ∧ (∀ r : Rec, clean_text (r.shape.getD "") 20 = "" →
        (transform_record r).title.data.take 6 = "UFO - ".data)
    ∧ (transform_record { recDisk with shape := none }).title
        = "UFO - Reno, NV (2020-05-01)" := by
  refine ⟨title_eq_amended, ?_, by decide, fun r h => title_starts_UFO r h, by decide⟩
  intro r
  show (title_of r).length ≤ 200
  unfold title_of
  simp

/-- Witness for C5's conditional conjunct: a record with `shape` absent, on
which the sanitized shape is empty and the title starts with "UFO - ". -/
theorem C5_title_format_witness :
    (transform_record { recDisk with shape := none }).title.data.take 6 = "UFO - ".data :=
  C5_title_format.2.2.2.1 { recDisk with shape := none } (by decide)

theorem pyStrip_subset (l : List Char) : ∀ c, c ∈ pyStrip l → c ∈ l := by
  intro c hc
  unfold pyStrip at hc
  rw [List.mem_reverse] at hc
  have h1 := (List.dropWhile_suffix Char.isWhitespace).subset hc
  rw [List.mem_reverse] at h1
  exact (List.dropWhile_suffix Char.isWhitespace).subset h1

theorem pyStrip_head_not_ws (l : List Char) (c : Char)
    (h : (pyStrip l).head? = some c) : c.isWhitespace = false := by
  unfold pyStrip at h
  set t := l.dropWhile Char.isWhitespace with ht
  have hs : t.reverse.dropWhile Char.isWhitespace <:+ t.reverse :=
    List.dropWhile_suffix _
  have hpre : (t.reverse.dropWhile Char.isWhitespace).reverse <+: t :=
    List.reverse_suffix.mp (by simpa using hs)
  obtain ⟨u, hu⟩ := hpre
  have htc : t.head? = some c := by
    cases he : (t.reverse.dropWhile Char.isWhitespace).reverse with
    | nil => rw [he] at h; exact absurd h (by simp)
    | cons a as =>
      rw [he] at h hu
      simp only [List.head?_cons, Option.some.injEq] at h
      rw [← hu, ← h]
      rfl
  have hmatch := List.head?_dropWhile_not Char.isWhitespace l
  rw [← ht, htc] at hmatch
  exact hmatch

theorem head_of_take (n : Nat) (m : List Char) (c : Char)
    (h : (m.take n).head? = some c) : m.head? = some c := by
  cases n with
  | zero => exact absurd h (by simp)
  | succ k =>
    cases m with
    | nil => exact absurd h (by simp)
    | cons a as => simpa using h

/-- C6: for every input and maximum length, the sanitizer's output is the
null-byte-stripped, whitespace-trimmed input truncated to the maximum
length; it contains no null byte, starts with no whitespace character, is
at most the maximum length long; empty input yields the empty string; and
the "in particular" sample (a null byte inside surrounding whitespace,
longer than the maximum) comes out null-free, trimmed and of exactly the
maximum length.  The embedding is a total function, so it never raises. -/
theorem C6_clean_text_sanitizer :
    (∀ (text : String) (maxLen : Nat),
        (clean_text text maxLen).data = (pyStrip (stripNull text.data)).take maxLen)
    ∧ (∀ (text : String) (maxLen : Nat) (c : Char),
        c ∈ (clean_text text maxLen).data → c ≠ Char.ofNat 0)
    ∧ (∀ (text : String) (maxLen : Nat) (c : Char),
        (clean_text text maxLen).data.head? = some c → c.isWhitespace = false)
    ∧ (∀ (text : String) (maxLen : Nat), (clean_text text maxLen).length ≤ maxLen)
    ∧ (∀ maxLen : Nat, clean_text "" maxLen = "")
    ∧ clean_text "  ab\x00cdef  " 4 = "abcd"
    ∧ (clean_text "  ab\x00cdef  " 4).length = 4 := by
  have hdata : ∀ (text : String) (maxLen : Nat),
      (clean_text text maxLen).data = (pyStrip (stripNull text.data)).take maxLen := by
    intro text maxLen
    unfold clean_text
    split_ifs with h
    · subst h; simp [pyStrip, stripNull]
    · rfl
  refine ⟨hdata, ?_, ?_, ?_, fun _ => rfl, by decide, by decide⟩
  · intro text maxLen c hc
    rw [hdata] at hc
    have h1 := pyStrip_subset _ c (List.take_subset _ _ hc)
    unfold stripNull at h1
    rw [List.mem_filter] at h1
    simpa using h1.2
  · intro text maxLen c hc
    rw [hdata] at hc
    exact pyStrip_head_not_ws _ c (head_of_take _ _ c hc)
  · intro text maxLen
    rw [String.length, hdata]
    exact List.length_take_le maxLen _

/-- Witness for C6's conditional conjuncts at a concrete input: the sample
input's output contains the character `a`, which is neither a null byte nor
whitespace at the head. -/
theorem C6_clean_text_sanitizer_witness :
    ('a' ∈ (clean_text "  ab\x00cdef  " 4).data → 'a' ≠ Char.ofNat 0)
    ∧ ((clean_text "  ab\x00cdef  " 4).data.head? = some 'a' →
        ('a').isWhitespace = false) :=
  ⟨C6_clean_text_sanitizer.2.1 "  ab\x00cdef  " 4 'a',
   C6_clean_text_sanitizer.2.2.1 "  ab\x00cdef  " 4 'a'⟩

/-- C7: every record the selector keeps has truthy `latitude`, `longitude`
and `local_sidereal_time`, and the selected set is no larger than the
configured maximum nor than the high-signal filtered set. -/
theorem C7_selector_invariants (records : List Rec) (m : Nat) :
    (∀ r ∈ select_records records m,
        numTruthy r.latitude ∧ numTruthy r.longitude ∧ strTruthy r.local_sidereal_time)
    ∧ (select_records records m).length ≤ m
    ∧ (select_records records m).length
        ≤ (high_signal_filter (tier1_filter records)).length := by
  refine ⟨?_, ?_, ?_⟩
  · intro r hr
    have h1 := List.take_subset _ _ hr
    rw [List.mem_mergeSort] at h1
    have h2 := (List.mem_filter.mp h1).1
    have h3 := (List.mem_filter.mp h2).2
    have h4 : (numTruthy r.latitude ∧ numTruthy r.longitude)
        ∧ strTruthy r.local_sidereal_time := by
      simpa [Bool.and_eq_true] using h3
    exact ⟨h4.1.1, h4.1.2, h4.2⟩
  · exact List.length_take_le m _
  · calc (select_records records m).length
        ≤ ((high_signal_filter (tier1_filter records)).mergeSort quality_ge).length :=
          List.length_take_le' m _
      _ = (high_signal_filter (tier1_filter records)).length :=
          List.length_mergeSort _

/-- A Tier-1, high-signal record used to witness C7. -/
def recC7 : Rec :=
  { Rec.empty with
    latitude := some 1
    longitude := some 1
    local_sidereal_time := some "12:00:00"
    physiological_effects := true }

theorem select_recC7 : select_records [recC7] 5 = [recC7] := by
  unfold select_records
  have h1 : high_signal_filter (tier1_filter [recC7]) = [recC7] := by decide
  rw [h1, List.mergeSort_singleton]
  rfl

/-- Witness for C7 at a concrete input: the single selected record from a
one-record list has truthy coordinates and sidereal time. -/
theorem C7_selector_invariants_witness :
    numTruthy recC7.latitude ∧ numTruthy recC7.longitude
      ∧ strTruthy recC7.local_sidereal_time :=
  (C7_selector_invariants [recC7] 5).1 recC7
    (by rw [select_recC7]; exact List.mem_singleton.mpr rfl)

theorem quality_ge_trans (a b c : Rec)
    (hab : quality_ge a b) (hbc : quality_ge b c) : quality_ge a c := by
  simp only [quality_ge, decide_eq_true_eq] at *
  exact le_trans hbc hab

theorem quality_ge_total (a b : Rec) : quality_ge a b || quality_ge b a := by
  simp only [quality_ge, Bool.or_eq_true, decide_eq_true_eq]
  exact le_total (quality_score b) (quality_score a)

/-- C8: the selected output is ordered by quality score descending: every
pair of positions `i < j` satisfies `quality(out[j]) ≤ quality(out[i])`, so
no record is preceded by one of strictly lower quality score. -/
theorem C8_sorted_descending (records : List Rec) (m : Nat) :
    List.Pairwise (fun a b => quality_score b ≤ quality_score a)
      (select_records records m)
    ∧ ∀ (i j : Fin (select_records records m).length), i < j →
        quality_score ((select_records records m).get j)
          ≤ quality_score ((select_records records m).get i) := by
  have hp : ((high_signal_filter (tier1_filter records)).mergeSort quality_ge).Pairwise
      (fun a b => quality_ge a b) :=
    List.sorted_mergeSort quality_ge_trans quality_ge_total _
  have hp2 : List.Pairwise (fun a b => quality_score b ≤ quality_score a)
      (select_records records m) := by
    refine List.Pairwise.imp ?_ (hp.sublist (List.take_sublist m _))
    intro a b h
    simpa [quality_ge] using h
  exact ⟨hp2, fun i j hij => List.pairwise_iff_get.mp hp2 i j hij⟩

/-- A record of quality score 2 (earthquake flag only). -/
def recC8lo : Rec :=
  { Rec.empty with
    latitude := some 1
    longitude := some 1
    local_sidereal_time := some "12:00:00"
    earthquake_nearby := true }

/-- A record of quality score 6 (physiological effects and EM interference). -/
def recC8hi : Rec :=
  { Rec.empty with
    latitude := some 1
    longitude := some 1
    local_sidereal_time := some "12:00:00"
    physiological_effects := true
    em_interference := true }

theorem select_recsC8 : select_records [recC8hi, recC8lo] 5 = [recC8hi, recC8lo] := by
  unfold select_records
  have h1 : high_signal_filter (tier1_filter [recC8hi, recC8lo]) = [recC8hi, recC8lo] := by
    decide
  rw [h1, List.mergeSort_of_sorted (by decide)]
  rfl

/-- Witness for C8 on a concrete selected list: the score-6 record sits at
position 0, the score-2 record at position 1, and the theorem yields
`quality(out[1]) ≤ quality(out[0])`. -/
theorem C8_sorted_descending_witness :
    quality_score recC8hi = 6 ∧ quality_score recC8lo = 2
    ∧ quality_score ((select_records [recC8hi, recC8lo] 5).get
          ⟨1, by rw [select_recsC8]; decide⟩)
        ≤ quality_score ((select_records [recC8hi, recC8lo] 5).get
          ⟨0, by rw [select_recsC8]; decide⟩) :=
  ⟨by decide, by decide,
   (C8_sorted_descending [recC8hi, recC8lo] 5).2
     ⟨0, by rw [select_recsC8]; decide⟩ ⟨1, by rw [select_recsC8]; decide⟩ (by decide)⟩

/-- C9: in the batch-insert loop every batch is attempted exactly once, in
order, regardless of failures (no halt, no retry); the failure total is the
sum of the full sizes of exactly the batches whose insert call raises; the
imported total is the sum of the sizes of the successful batches; and together
they account for every record. -/
theorem C9_batch_failure_isolation (ok : Nat → Bool) (i : Nat)
    (batches : List (List Investigation)) :
    (run_import ok i batches).2.2 = List.range' i batches.length
    ∧ (run_import ok i batches).1
        = (((batches.enumFrom i).filter (fun p => ok p.1)).map
            (fun p => p.2.length)).sum
    ∧ (run_import ok i batches).2.1
        = (((batches.enumFrom i).filter (fun p => !ok p.1)).map
            (fun p => p.2.length)).sum
    ∧ (run_import ok i batches).1 + (run_import ok i batches).2.1
        = (batches.map List.length).sum := by
  induction batches generalizing i with
  | nil => simp [run_import]
  | cons b bs ih =>
    obtain ⟨ih1, ih2, ih3, ih4⟩ := ih (i + 1)
    unfold run_import
    cases hok : ok i <;>
      simp [hok, List.range'_succ, List.enumFrom, ih1, ih2, ih3, ← ih4] <;> omega
